import Mathlib

/-!
Verification development for the citation-extraction sweep script
(src/main.py).  The definitions below are a shallow embedding of the
script: pure fragments become Lean functions, the browser interaction of
the redirect resolver becomes an explicit record of the observable run
(launch success, response events seen by the listener, navigation
failure), and Python exceptions become Except values.  Session
accounting (opened/closed browser sessions) is threaded through the
resolver so that resource claims are statable.
-/

namespace Citations

/-- Python str.startswith, modelled as a character-list test -/
def pyStartswith (s p : String) : Bool := p.data.isPrefixOf s.data

/-- reason attached to a failed resolution attempt -/
inductive ResolutionReason
  | timeout
  | navigationError
  | noRedirectObserved
deriving DecidableEq, Repr

/-- outcome of attempting to resolve one indirection URL -/
inductive ResolutionResult
  | Resolved (finalUrl : String)
  | Unresolved (originalUrl : String) (reason : ResolutionReason)
deriving DecidableEq, Repr

/-- the URL string the script returns for a resolution outcome:
the final URL on success, the original URL otherwise (lines 72-81) -/
def ResolutionResult.resultUrl : ResolutionResult → String
  | .Resolved u => u
  | .Unresolved u _ => u

/-- the indirection-domain base checked at line 27 of src/main.py -/
def indirectionBase : String :=
  "https://vertexaisearch.cloud.google.com/grounding-api-redirect/"

/-- one response event observed by the page listener
(fields read by handle_response, lines 40-56) -/
structure ResponseEvent where
  resource_type : String
  status : Nat
  location : Option String
  url : String
deriving DecidableEq, Repr

/-- status in [301, 302, 303, 307, 308] (line 45) -/
def isRedirectStatus (s : Nat) : Bool :=
  s == 301 || s == 302 || s == 303 || s == 307 || s == 308

/-- the handle_response callback (lines 40-56): updates final_url from one
response event.  join models urllib.parse.urljoin, kept abstract. -/
def handleResponse (join : String → String → String) (origUrl : String)
    (finalUrl : String) (r : ResponseEvent) : String :=
  if r.resource_type == "document" then
    if isRedirectStatus r.status then
      match r.location with
      | some loc =>
        if loc ≠ "" then
          if pyStartswith loc "http" then loc else join r.url loc
        else finalUrl
      | none => finalUrl
    else if r.url ≠ origUrl then r.url
    else finalUrl
  else finalUrl

/-- observable behaviour of one browser session: whether the chromium
launch succeeded, whether page setup succeeded, the document response
events delivered to the listener, and whether page.goto raised
(timeout or navigation error, lines 64-68) -/
structure BrowserRun where
  launchOk : Bool
  setupOk : Bool
  events : List ResponseEvent
  gotoFails : Bool
deriving DecidableEq, Repr

/-- result of one resolution attempt together with session accounting -/
structure ResolveOutcome where
  result : ResolutionResult
  sessionsOpened : Nat
  sessionsClosed : Nat
deriving DecidableEq, Repr

/-- final_url after all listener events have been processed (line 37 plus
the callback): the fold of handle_response over the observed events -/
def capturedUrl (join : String → String → String) (url : String)
    (run : BrowserRun) : String :=
  run.events.foldl (handleResponse join url) url

/-- slow path of resolve_redirect_url (lines 32-81): launch a browser,
process listener events, swallow goto failures, close the browser, then
compare final_url with the original.  A launch failure is caught by the
outer except (line 79) with nothing opened; a setup failure after launch
is also caught there, and the sync_playwright context exit tears the
session down. -/
def resolveSlow (join : String → String → String) (url : String)
    (run : BrowserRun) : ResolveOutcome :=
  if !run.launchOk then
    ⟨.Unresolved url .navigationError, 0, 0⟩
  else if !run.setupOk then
    ⟨.Unresolved url .navigationError, 1, 1⟩
  else if capturedUrl join url run ≠ url then
    ⟨.Resolved (capturedUrl join url run), 1, 1⟩
  else
    ⟨.Unresolved url
      (if run.gotoFails then .timeout else .noRedirectObserved), 1, 1⟩

/-- resolve_redirect_url (lines 25-81): fast path first (lines 27-28),
then the browser slow path -/
def resolveR (join : String → String → String) (url : String)
    (run : BrowserRun) : ResolveOutcome :=
  if !(pyStartswith url indirectionBase) then ⟨.Resolved url, 0, 0⟩
  else resolveSlow join url run

/-- the string actually returned by resolve_redirect_url -/
def resolve_redirect_url (join : String → String → String) (url : String)
    (run : BrowserRun) : String :=
  ((resolveR join url run).result).resultUrl

/-- a concrete urljoin instance used by witnesses -/
def joinConcat : String → String → String := fun a b => a ++ b

/-- a concrete indirection URL used by witnesses -/
def sampleIndirection : String := indirectionBase ++ "AbC123"

/-- a concrete captured redirect event for sampleIndirection -/
def redirectEvent : ResponseEvent :=
  ⟨"document", 302, some "https://dest.example/page", sampleIndirection⟩

/-- a browser run that captures a redirect and then times out on goto -/
def runCaptured : BrowserRun := ⟨true, true, [redirectEvent], true⟩

/-- a browser run that observes nothing and navigates without error -/
def runPlain : BrowserRun := ⟨true, true, [], false⟩

/-- models the Python expression list(set(xs)) at lines 115, 147, 171:
the output is some duplicate-free enumeration of the distinct elements
of xs; the enumeration order is hash-dependent and unspecified -/
def IsPySetList (xs out : List String) : Prop :=
  out.Nodup ∧ (∀ s ∈ out, s ∈ xs) ∧ (∀ s ∈ xs, s ∈ out)

instance (xs out : List String) : Decidable (IsPySetList xs out) := by
  unfold IsPySetList; infer_instance

/-- deduplication that keeps the first occurrence of each element,
following the words of the spec (deduplicate preserving first-seen
order); seen accumulates the elements already emitted -/
def dedupFS (seen : List String) : List String → List String
  | [] => []
  | x :: xs =>
    if x ∈ seen then dedupFS seen xs else x :: dedupFS (x :: seen) xs

/-- first-seen-order deduplication of a list, from the words of the spec -/
def dedupFirstSeen (l : List String) : List String := dedupFS [] l

/-- one citation entry of a Claude text block (line 113 reads its url) -/
structure ClaudeCitation where
  url : String
deriving DecidableEq, Repr

/-- one content block of a Claude message: its type tag and, when the
citations attribute is present and non-None, its citation list
(lines 110-113); none covers a missing or None attribute -/
structure ClaudeBlock where
  type : String
  citations : Option (List ClaudeCitation)
deriving DecidableEq, Repr

/-- citation extraction of search_claude (lines 109-113): collect the
urls of the citations of every text block, in order -/
def claudeExtract (content : List ClaudeBlock) : List String :=
  content.foldl (fun acc block =>
    if block.type == "text" then
      match block.citations with
      | some cs => if cs.isEmpty then acc else acc ++ cs.map (·.url)
      | none => acc
    else acc) []

/-- concrete Claude content extracting citations b then a -/
def cBlocksSample : List ClaudeBlock := [⟨"text", some [⟨"b"⟩, ⟨"a"⟩]⟩]

/-- a Python exception raised during adapter extraction -/
inductive PyErr
  | typeError
  | attributeError
deriving DecidableEq, Repr

/-- the web attribute of a grounding chunk.  The code guards its uri
field with hasattr only (line 142), so uri is modelled in three states:
none (attribute missing), some none (present but None), some (some u)
(present with a string) -/
structure GWeb where
  uri : Option (Option String)
deriving DecidableEq, Repr

/-- one grounding chunk; web collapses a missing attribute and a None
value, since the code checks both hasattr and truthiness (line 142) -/
structure GChunk where
  web : Option GWeb
deriving DecidableEq, Repr

/-- grounding metadata of a candidate.  The code guards grounding_chunks
with hasattr only, not truthiness (line 140), so three states are
distinguished: none (attribute missing), some none (present but None),
some (some chunks) (present with a list) -/
structure GroundingMetadata where
  grounding_chunks : Option (Option (List GChunk))
deriving DecidableEq, Repr

/-- one Gemini candidate; grounding_metadata collapses missing and None
because the code checks hasattr and truthiness (line 139) -/
structure GCandidate where
  grounding_metadata : Option GroundingMetadata
deriving DecidableEq, Repr

/-- a Gemini response; candidates collapses missing and falsy (None)
because the code checks hasattr and truthiness (line 137); an empty
candidate list is some [] -/
structure GeminiResponse where
  candidates : Option (List GCandidate)
deriving DecidableEq, Repr

/-- the body of the per-chunk loop of search_gemini (lines 141-145):
skip a chunk without a truthy web or without a uri attribute, raise
AttributeError when uri is present but None (resolve_redirect_url would
call startswith on None), and otherwise append the resolved URL -/
def geminiStep (res : String → ResolutionResult) (acc : List String)
    (chunk : GChunk) : Except PyErr (List String) :=
  match chunk.web with
  | none => .ok acc
  | some w =>
    match w.uri with
    | none => .ok acc
    | some none => .error .attributeError
    | some (some u) => .ok (acc ++ [(res u).resultUrl])

/-- the per-chunk loop of search_gemini with exception propagation -/
def geminiChunksFold (res : String → ResolutionResult) :
    List String → List GChunk → Except PyErr (List String)
  | acc, [] => .ok acc
  | acc, chunk :: rest =>
    match geminiStep res acc chunk with
    | .ok acc2 => geminiChunksFold res acc2 rest
    | .error e => .error e

/-- citation extraction of search_gemini (lines 135-145), before the
set-based deduplication of line 147.  res stands for the already
instantiated resolve_redirect_url.  Iterating a grounding_chunks
attribute that is present but None raises TypeError (line 141). -/
def searchGeminiExtract (res : String → ResolutionResult)
    (resp : GeminiResponse) : Except PyErr (List String) :=
  match resp.candidates with
  | some (c :: _) =>
    match c.grounding_metadata with
    | some gm =>
      match gm.grounding_chunks with
      | none => .ok []
      | some none => .error .typeError
      | some (some chunks) => geminiChunksFold res [] chunks
    | none => .ok []
  | _ => .ok []

/-- one annotation of a ChatGPT content item (lines 167-169): its type
tag, always present on the SDK object, and its url when that attribute
exists -/
structure AnnotationItem where
  type : String
  url : Option String
deriving DecidableEq, Repr

/-- one ChatGPT content item; annotations collapses a missing attribute
and a falsy value, since the code checks both (line 166) -/
structure ContentItem where
  annotations : Option (List AnnotationItem)
deriving DecidableEq, Repr

/-- one ChatGPT output item; content collapses missing and falsy
(line 164) -/
structure OutputItem where
  content : Option (List ContentItem)
deriving DecidableEq, Repr

/-- a ChatGPT response; output collapses missing and falsy (line 162) -/
structure ChatGPTResponse where
  output : Option (List OutputItem)
deriving DecidableEq, Repr

/-- citation extraction of search_chatgpt (lines 160-169), before the
set-based deduplication of line 171 -/
def chatgptExtract (resp : ChatGPTResponse) : List String :=
  match resp.output with
  | none => []
  | some items =>
    items.foldl (fun acc oi =>
      match oi.content with
      | none => acc
      | some cis =>
        cis.foldl (fun acc2 ci =>
          match ci.annotations with
          | none => acc2
          | some anns =>
            anns.foldl (fun acc3 ann =>
              if ann.type == "url_citation" then
                match ann.url with
                | some u => acc3 ++ [u]
                | none => acc3
              else acc3) acc2) acc) []

/-- a resolver that fails on every URL, used by witnesses -/
def resUnresolved : String → ResolutionResult :=
  fun u => .Unresolved u .timeout

/-- a concrete web attribute carrying sampleIndirection -/
def gwSample : GWeb := ⟨some (some sampleIndirection)⟩

/-- a concrete grounding chunk carrying sampleIndirection -/
def gChunkSample : GChunk := ⟨some gwSample⟩

/-- a concrete candidate with one grounding chunk -/
def gCandSample : GCandidate := ⟨some ⟨some (some [gChunkSample])⟩⟩

/-- a concrete Gemini response with one candidate and one chunk -/
def gRespSample : GeminiResponse := ⟨some [gCandSample]⟩

/-- temperature values from the YAML config; the script only copies them
into output records and never computes with them, so a rational carrier
is a faithful stand-in for the YAML numbers -/
abbrev Temperature := Rat

/-- one flattened prompt entry (lines 185-194) -/
structure PromptData where
  prompt : String
  conflict : String
  category : String
  subcategory : String
deriving DecidableEq, Repr

/-- one sweep cell: model name, prompt entry, temperature, and the
0-based index of the inner iteration loop (lines 222-228) -/
structure Cell where
  model : String
  promptData : PromptData
  temperature : Temperature
  iteration : Nat
deriving DecidableEq, Repr

/-- one result row appended at line 247, with the JSON field names of
lines 234-245 -/
structure ResultRecord where
  model : String
  prompt : String
  conflict : String
  category : String
  subcategory : String
  temperature : Temperature
  iteration : Nat
  response : Option String
  citations : List String
  tool_calling : Bool
deriving DecidableEq, Repr

/-- the result dict literal of lines 234-245 -/
def mkRecord (cell : Cell) (citations : List String) : ResultRecord :=
  { model := cell.model
    prompt := cell.promptData.prompt
    conflict := cell.promptData.conflict
    category := cell.promptData.category
    subcategory := cell.promptData.subcategory
    temperature := cell.temperature
    iteration := cell.iteration + 1
    response := none
    citations := citations
    tool_calling := true }

/-- outcome of one provider call: deduplicated citations, or an
exception caught at lines 250-251 -/
inductive CallOutcome
  | ok (citations : List String)
  | err
deriving DecidableEq, Repr

/-- one issued provider invocation: the model name selecting the search
function and the single query argument; line 232 passes the prompt text
and nothing else -/
structure ProviderCall where
  searchFunc : String
  query : String
deriving DecidableEq, Repr

/-- sweep state: accumulated result records (line 247), cells whose call
raised (lines 250-251), and the log of issued provider invocations -/
structure SweepState where
  records : List ResultRecord
  failed : List Cell
  calls : List ProviderCall
deriving DecidableEq, Repr

/-- body of the iteration loop (lines 227-251): issue the provider call
with exactly the data the code passes (model-selected search function,
prompt text), then append the result record or report the failure.
call is the oracle for provider behaviour, indexed by the invocation
number so repeated invocations may behave differently. -/
def sweepStep (call : Nat → String → String → CallOutcome)
    (st : SweepState) (cell : Cell) : SweepState :=
  match call st.calls.length cell.model cell.promptData.prompt with
  | .ok cites =>
    { records := st.records ++ [mkRecord cell cites]
      failed := st.failed
      calls := st.calls ++ [⟨cell.model, cell.promptData.prompt⟩] }
  | .err =>
    { records := st.records
      failed := st.failed ++ [cell]
      calls := st.calls ++ [⟨cell.model, cell.promptData.prompt⟩] }

/-- the sweep loop over its remaining cells, from a given state -/
def runSweepFrom (call : Nat → String → String → CallOutcome)
    (st : SweepState) : List Cell → SweepState
  | [] => st
  | c :: cs => runSweepFrom call (sweepStep call st c) cs

/-- the whole sweep of lines 219-251 over a flattened cell list -/
def runSweep (call : Nat → String → String → CallOutcome)
    (cells : List Cell) : SweepState :=
  runSweepFrom call ⟨[], [], []⟩ cells

/-- one CSV row (lines 262-271) -/
structure CsvRow where
  model : String
  prompt : String
  conflict : String
  category : String
  subcategory : String
  temperature : Temperature
  iteration : Nat
  citation : String
deriving DecidableEq, Repr

/-- the CSV row built for one record and one citation (lines 262-271) -/
def csvRowOf (r : ResultRecord) (citation : String) : CsvRow :=
  ⟨r.model, r.prompt, r.conflict, r.category, r.subcategory,
    r.temperature, r.iteration, citation⟩

/-- the nested CSV loop of lines 259-271: one row per citation of each
record, records in order -/
def csvRows (results : List ResultRecord) : List CsvRow :=
  results.foldl (fun acc r => acc ++ r.citations.map (csvRowOf r)) []

/-- the number of objects json.dump writes at lines 253-256: one JSON
entry per result record -/
def jsonCount (results : List ResultRecord) : Nat := results.length

/-- a concrete prompt entry for witnesses -/
def pdSample : PromptData :=
  ⟨"What happened in the region?", "conflictA", "catA", "subA"⟩

/-- a concrete cell whose provider call will raise -/
def cellFail : Cell := ⟨"gemini", pdSample, 0, 0⟩

/-- a concrete cell whose provider call will succeed -/
def cellOk : Cell := ⟨"claude", pdSample, 0, 0⟩

/-- the same cell as cellOk at a different temperature -/
def cellOkWarm : Cell := ⟨"claude", pdSample, 1, 0⟩

/-- a concrete provider oracle: gemini calls raise, others return one
citation -/
def callSample : Nat → String → String → CallOutcome :=
  fun _ m _ =>
    if m == "gemini" then .err else .ok ["https://example.com/article"]

/-- two sweep cells that agree except possibly on temperature -/
def TempVariant (c1 c2 : Cell) : Prop :=
  c1.model = c2.model ∧ c1.promptData = c2.promptData
    ∧ c1.iteration = c2.iteration

instance (c1 c2 : Cell) : Decidable (TempVariant c1 c2) := by
  unfold TempVariant; infer_instance

/-- a record with its temperature field overwritten by zero -/
def eraseTemp (r : ResultRecord) : ResultRecord := { r with temperature := 0 }

end Citations

open Citations

/-! Helper lemmas about the deduplication model, the Gemini chunk loop,
the sweep loop and the CSV sink. -/

theorem mem_dedupFS (seen l : List String) (s : String) :
    s ∈ dedupFS seen l ↔ s ∈ l ∧ s ∉ seen := by
  induction l generalizing seen with
  | nil => simp [dedupFS]
  | cons x xs ih =>
    by_cases hx : x ∈ seen
    · rw [dedupFS, if_pos hx, ih]
      simp only [List.mem_cons]
      constructor
      · exact fun ⟨h1, h2⟩ => ⟨Or.inr h1, h2⟩
      · rintro ⟨rfl | h1, h2⟩
        · exact absurd hx h2
        · exact ⟨h1, h2⟩
    · rw [dedupFS, if_neg hx]
      simp only [List.mem_cons, ih, not_or]
      constructor
      · rintro (rfl | ⟨h1, h2, h3⟩)
        · exact ⟨Or.inl rfl, hx⟩
        · exact ⟨Or.inr h1, h3⟩
      · rintro ⟨rfl | h1, h2⟩
        · exact Or.inl rfl
        · by_cases hsx : s = x
          · exact Or.inl hsx
          · exact Or.inr ⟨h1, hsx, h2⟩

theorem nodup_dedupFS (seen l : List String) : (dedupFS seen l).Nodup := by
  induction l generalizing seen with
  | nil => simp [dedupFS]
  | cons x xs ih =>
    by_cases hx : x ∈ seen
    · rw [dedupFS, if_pos hx]; exact ih seen
    · rw [dedupFS, if_neg hx]
      refine List.nodup_cons.mpr ⟨?_, ih (x :: seen)⟩
      intro hmem
      exact ((mem_dedupFS _ _ _).mp hmem).2 (List.mem_cons_self x seen)

theorem mem_dedupFirstSeen (l : List String) (s : String) :
    s ∈ dedupFirstSeen l ↔ s ∈ l := by
  simp [dedupFirstSeen, mem_dedupFS]

theorem nodup_dedupFirstSeen (l : List String) : (dedupFirstSeen l).Nodup :=
  nodup_dedupFS [] l

/-- any list permitted by the set-based deduplication is a permutation of
the first-seen-order deduplication of the input -/
theorem pySetList_perm_dedupFirstSeen (xs out : List String)
    (h : IsPySetList xs out) : out.Perm (dedupFirstSeen xs) := by
  obtain ⟨hnd, hsub1, hsub2⟩ := h
  refine (List.perm_ext_iff_of_nodup hnd (nodup_dedupFirstSeen xs)).mpr ?_
  intro a
  rw [mem_dedupFirstSeen]
  exact ⟨fun ha => hsub1 a ha, fun ha => hsub2 a ha⟩

/-- anything already accumulated survives one chunk step that returns ok -/
theorem geminiStep_sub (res : String → ResolutionResult)
    (acc acc2 : List String) (chunk : GChunk)
    (h : geminiStep res acc chunk = .ok acc2) : ∀ a ∈ acc, a ∈ acc2 := by
  unfold geminiStep at h
  split at h
  · cases h; exact fun a ha => ha
  · split at h
    · cases h; exact fun a ha => ha
    · cases h
    · cases h; exact fun a ha => List.mem_append_left _ ha

/-- a chunk passing the web and uri guards contributes its resolved URL -/
theorem geminiStep_mem (res : String → ResolutionResult)
    (acc acc2 : List String) (chunk : GChunk) (w : GWeb) (u : String)
    (hw : chunk.web = some w) (hu : w.uri = some (some u))
    (h : geminiStep res acc chunk = .ok acc2) :
    (res u).resultUrl ∈ acc2 := by
  simp only [geminiStep, hw, hu] at h
  cases h
  simp

/-- if the chunk loop finishes without an exception, the accumulator
survives and every guard-passing chunk has contributed its resolved URL -/
theorem geminiChunksFold_mem (res : String → ResolutionResult)
    (chunks : List GChunk) (acc l : List String)
    (h : geminiChunksFold res acc chunks = .ok l) :
    (∀ a ∈ acc, a ∈ l)
    ∧ ∀ chunk ∈ chunks, ∀ w u, chunk.web = some w →
        w.uri = some (some u) → (res u).resultUrl ∈ l := by
  induction chunks generalizing acc with
  | nil =>
    rw [geminiChunksFold] at h
    cases h
    exact ⟨fun a ha => ha, by simp⟩
  | cons chunk rest ih =>
    rw [geminiChunksFold] at h
    cases hstep : geminiStep res acc chunk with
    | error e => rw [hstep] at h; cases h
    | ok acc2 =>
      rw [hstep] at h
      obtain ⟨hacc, hrest⟩ := ih acc2 h
      refine ⟨fun a ha => hacc a (geminiStep_sub res acc acc2 chunk hstep a ha), ?_⟩
      intro ch hch w u hw hu
      rcases List.mem_cons.mp hch with rfl | hch2
      · exact hacc _ (geminiStep_mem res acc acc2 ch w u hw hu hstep)
      · exact hrest ch hch2 w u hw hu

/-- records and failure reports already accumulated survive the rest of
the sweep -/
theorem runSweepFrom_mono (call : Nat → String → String → CallOutcome)
    (cells : List Cell) :
    ∀ st : SweepState,
      (∀ r ∈ st.records, r ∈ (runSweepFrom call st cells).records)
      ∧ (∀ c ∈ st.failed, c ∈ (runSweepFrom call st cells).failed) := by
  induction cells with
  | nil => intro st; simp [runSweepFrom]
  | cons d ds ih =>
    intro st
    rw [runSweepFrom]
    obtain ⟨ih1, ih2⟩ := ih (sweepStep call st d)
    constructor
    · intro r hr
      apply ih1
      unfold sweepStep
      rcases call st.calls.length d.model d.promptData.prompt with _ | _ <;>
        simp [hr]
    · intro c hc
      apply ih2
      unfold sweepStep
      rcases call st.calls.length d.model d.promptData.prompt with _ | _ <;>
        simp [hc]

/-- every processed cell leaves its mark: a cell whose call always
raises ends among the failures, and a cell whose call always succeeds
with citations cs has its record among the results -/
theorem runSweepFrom_process (call : Nat → String → String → CallOutcome)
    (cells : List Cell) (c : Cell) (hc : c ∈ cells) :
    ∀ st : SweepState,
      ((∀ i, call i c.model c.promptData.prompt = .err)
        → c ∈ (runSweepFrom call st cells).failed)
      ∧ (∀ cs, (∀ i, call i c.model c.promptData.prompt = .ok cs)
        → mkRecord c cs ∈ (runSweepFrom call st cells).records) := by
  induction hc with
  | head ds =>
    intro st
    rw [runSweepFrom]
    constructor
    · intro herr
      refine (runSweepFrom_mono call ds _).2 c ?_
      simp [sweepStep, herr st.calls.length]
    · intro cs hok
      refine (runSweepFrom_mono call ds _).1 _ ?_
      simp [sweepStep, hok st.calls.length]
  | tail d hmem ih =>
    intro st
    rw [runSweepFrom]
    exact ih (sweepStep call st d)

/-- one sweep step adds exactly one record or one failure report, and
always logs exactly one provider call -/
theorem sweepStep_counts (call : Nat → String → String → CallOutcome)
    (st : SweepState) (c : Cell) :
    (sweepStep call st c).records.length + (sweepStep call st c).failed.length
      = st.records.length + st.failed.length + 1
    ∧ (sweepStep call st c).calls.length = st.calls.length + 1 := by
  unfold sweepStep
  cases hc : call st.calls.length c.model c.promptData.prompt <;>
    simp [hc] <;> omega

/-- the sweep processes every cell exactly once: the records and the
failure reports together count the cells, and one provider call is
issued per cell -/
theorem runSweepFrom_counts (call : Nat → String → String → CallOutcome)
    (cells : List Cell) :
    ∀ st : SweepState,
      (runSweepFrom call st cells).records.length
          + (runSweepFrom call st cells).failed.length
        = st.records.length + st.failed.length + cells.length
      ∧ (runSweepFrom call st cells).calls.length
        = st.calls.length + cells.length := by
  induction cells with
  | nil => intro st; simp [runSweepFrom]
  | cons d ds ih =>
    intro st
    rw [runSweepFrom]
    obtain ⟨ih1, ih2⟩ := ih (sweepStep call st d)
    obtain ⟨s1, s2⟩ := sweepStep_counts call st d
    simp only [List.length_cons]
    omega

/-- the CSV fold from any accumulator appends one block of rows per
record in order -/
theorem csvRows_foldl_eq (results : List ResultRecord) :
    ∀ acc : List CsvRow,
      results.foldl (fun a r => a ++ r.citations.map (csvRowOf r)) acc
        = acc ++ results.flatMap (fun r => r.citations.map (csvRowOf r)) := by
  induction results with
  | nil => intro acc; simp
  | cons r rs ih =>
    intro acc
    rw [List.foldl_cons, ih, List.flatMap_cons, List.append_assoc]

/-- the CSV rows are exactly the flattened (record, citation) pairs -/
theorem csvRows_eq_flatMap (results : List ResultRecord) :
    csvRows results
      = results.flatMap (fun r => r.citations.map (csvRowOf r)) := by
  simpa [csvRows] using csvRows_foldl_eq results []

/-- the number of CSV rows is the total number of citations -/
theorem csvRows_length (results : List ResultRecord) :
    (csvRows results).length
      = (results.map (fun r => r.citations.length)).sum := by
  induction results with
  | nil => simp [csvRows]
  | cons r rs ih =>
    rw [csvRows_eq_flatMap] at ih ⊢
    simp only [List.flatMap_cons, List.length_append, List.length_map,
      List.map_cons, List.sum_cons, ih]

/-- records of temperature variants agree once temperature is erased -/
theorem eraseTemp_mkRecord (c1 c2 : Cell) (h : TempVariant c1 c2)
    (cs : List String) :
    eraseTemp (mkRecord c1 cs) = eraseTemp (mkRecord c2 cs) := by
  obtain ⟨h1, h2, h3⟩ := h
  simp [eraseTemp, mkRecord, h1, h2, h3]

/-- sweeps over temperature variants from states with equal call logs
and temperature-erased-equal records stay related -/
theorem runSweepFrom_tempNI (call : Nat → String → String → CallOutcome)
    (cells1 cells2 : List Cell)
    (h : List.Forall₂ TempVariant cells1 cells2) :
    ∀ st1 st2 : SweepState, st1.calls = st2.calls →
      st1.records.map eraseTemp = st2.records.map eraseTemp →
      (runSweepFrom call st1 cells1).calls
          = (runSweepFrom call st2 cells2).calls
      ∧ (runSweepFrom call st1 cells1).records.map eraseTemp
          = (runSweepFrom call st2 cells2).records.map eraseTemp := by
  induction h with
  | nil => intro st1 st2 hc hr; simp [runSweepFrom, hc, hr]
  | @cons a b l1 l2 hab htail ih =>
    intro st1 st2 hc hr
    rw [runSweepFrom, runSweepFrom]
    obtain ⟨hm, hp, hi⟩ := hab
    have hlen : st1.calls.length = st2.calls.length := by rw [hc]
    have hout : call st1.calls.length a.model a.promptData.prompt
        = call st2.calls.length b.model b.promptData.prompt := by
      rw [hlen, hm, hp]
    have hstep1 : (sweepStep call st1 a).calls = (sweepStep call st2 b).calls := by
      unfold sweepStep
      rw [hout]
      cases call st2.calls.length b.model b.promptData.prompt <;>
        simp [hc, hm, hp]
    have hstep2 : (sweepStep call st1 a).records.map eraseTemp
        = (sweepStep call st2 b).records.map eraseTemp := by
      unfold sweepStep
      rw [hout]
      cases call st2.calls.length b.model b.promptData.prompt with
      | ok cites =>
        simp [hr, eraseTemp_mkRecord a b ⟨hm, hp, hi⟩ cites]
      | err => simpa using hr
    exact ih (sweepStep call st1 a) (sweepStep call st2 b) hstep1 hstep2

/-! Claim theorems. -/

/-- C3: for every URL that does not start with the indirection-domain
base, resolve returns that URL unchanged as Resolved and opens no
browser session; the check precedes any browser work
(src/main.py lines 27-28). -/
theorem resolve_fast_path (join : String → String → String) (url : String)
    (run : BrowserRun) (h : pyStartswith url indirectionBase = false) :
    resolveR join url run = ⟨.Resolved url, 0, 0⟩ := by
  simp [resolveR, h]

set_option maxRecDepth 8000 in
/-- witness for resolve_fast_path at a concrete non-indirection URL -/
theorem resolve_fast_path_witness :
    (pyStartswith "https://example.com/article" indirectionBase = false) ∧
    resolveR joinConcat "https://example.com/article"
        ⟨true, true, [], true⟩
      = ⟨.Resolved "https://example.com/article", 0, 0⟩ :=
  ⟨by decide, resolve_fast_path _ _ _ (by decide)⟩

/-- C4: whenever the response listener captured a redirect before the
navigation finished (the folded final_url differs from the original),
resolve returns Resolved with the captured URL, regardless of whether
page.goto raised a timeout or error (src/main.py lines 63-77). -/
theorem resolve_honors_captured_redirect (join : String → String → String)
    (url : String) (run : BrowserRun)
    (hp : pyStartswith url indirectionBase = true)
    (hl : run.launchOk = true) (hs : run.setupOk = true)
    (hc : capturedUrl join url run ≠ url) :
    (resolveR join url run).result = .Resolved (capturedUrl join url run) := by
  simp [resolveR, resolveSlow, hp, hl, hs, hc]

set_option maxRecDepth 8000 in
/-- witness for resolve_honors_captured_redirect: a 302 event is captured
and goto subsequently fails, yet the outcome is Resolved -/
theorem resolve_honors_captured_redirect_witness :
    (pyStartswith sampleIndirection indirectionBase = true
      ∧ runCaptured.launchOk = true ∧ runCaptured.setupOk = true
      ∧ capturedUrl joinConcat sampleIndirection runCaptured ≠ sampleIndirection)
    ∧ (resolveR joinConcat sampleIndirection runCaptured).result
        = .Resolved (capturedUrl joinConcat sampleIndirection runCaptured) :=
  ⟨⟨by decide, rfl, rfl, by decide⟩,
    resolve_honors_captured_redirect joinConcat sampleIndirection runCaptured
      (by decide) rfl rfl (by decide)⟩

/-- C6: session accounting balances on every exit path of resolve: the
sessions closed equal the sessions opened, and at most one session is
created per resolution, so no execution leaks a browser session
(src/main.py lines 32-81). -/
theorem resolve_no_session_leak (join : String → String → String)
    (url : String) (run : BrowserRun) :
    (resolveR join url run).sessionsClosed
        = (resolveR join url run).sessionsOpened
    ∧ (resolveR join url run).sessionsOpened ≤ 1 := by
  unfold resolveR resolveSlow
  repeat' split
  all_goals simp

set_option maxRecDepth 8000 in
/-- C2 counterexample: the script keeps no resolution cache, so two
resolutions of the same indirection URL launch one browser session each;
the combined count is 2, refuting that the second call launches none. -/
theorem resolve_no_cache_counterexample :
    ¬ ((resolveR joinConcat sampleIndirection runPlain).sessionsOpened
        + (resolveR joinConcat sampleIndirection runPlain).sessionsOpened
        ≤ 1) := by
  decide

/-- C2 (amended): resolving the same already-final URL twice yields
identical results with no browser session either time; for the same
indirection URL there is no cache, and every call whose launch succeeds
opens its own browser session (src/main.py lines 25-81). -/
theorem resolve_repeat_behaviour (join : String → String → String)
    (u v : String) (run1 run2 : BrowserRun)
    (hu : pyStartswith u indirectionBase = false)
    (hv : pyStartswith v indirectionBase = true)
    (hl : run1.launchOk = true) :
    (resolveR join u run1 = resolveR join u run2
      ∧ (resolveR join u run1).sessionsOpened = 0)
    ∧ (resolveR join v run1).sessionsOpened = 1 := by
  refine ⟨⟨?_, ?_⟩, ?_⟩
  · simp [resolveR, hu]
  · simp [resolveR, hu]
  · simp only [resolveR, resolveSlow, hv, hl]
    repeat' split
    all_goals simp_all

set_option maxRecDepth 8000 in
/-- witness for resolve_repeat_behaviour at concrete URLs and runs -/
theorem resolve_repeat_behaviour_witness :
    (pyStartswith "https://example.com/article" indirectionBase = false
      ∧ pyStartswith sampleIndirection indirectionBase = true
      ∧ runPlain.launchOk = true)
    ∧ (resolveR joinConcat "https://example.com/article" runPlain
          = resolveR joinConcat "https://example.com/article" runCaptured
        ∧ (resolveR joinConcat "https://example.com/article" runPlain).sessionsOpened = 0)
    ∧ (resolveR joinConcat sampleIndirection runPlain).sessionsOpened = 1 :=
  ⟨⟨by decide, by decide, rfl⟩,
    resolve_repeat_behaviour joinConcat "https://example.com/article"
      sampleIndirection runPlain runCaptured (by decide) (by decide) rfl⟩

/-- C5: a grounding-chunk URL whose resolution fails is still emitted by
the Gemini adapter carrying the original URL, and it survives the
set-based deduplication: unresolved citations are never dropped
(src/main.py lines 72-81 and 141-147). -/
theorem unresolved_citation_kept (res : String → ResolutionResult)
    (resp : GeminiResponse) (c : GCandidate) (cs : List GCandidate)
    (gm : GroundingMetadata) (chunks : List GChunk) (chunk : GChunk)
    (w : GWeb) (u : String) (reason : ResolutionReason)
    (l out : List String)
    (hc : resp.candidates = some (c :: cs))
    (hgm : c.grounding_metadata = some gm)
    (hch : gm.grounding_chunks = some (some chunks))
    (hmem : chunk ∈ chunks)
    (hw : chunk.web = some w)
    (hu : w.uri = some (some u))
    (hres : res u = .Unresolved u reason)
    (hok : searchGeminiExtract res resp = .ok l)
    (hout : IsPySetList l out) :
    u ∈ l ∧ u ∈ out := by
  simp only [searchGeminiExtract, hc, hgm, hch] at hok
  obtain ⟨-, hall⟩ := geminiChunksFold_mem res chunks [] l hok
  have hmem2 : (res u).resultUrl ∈ l := hall chunk hmem w u hw hu
  rw [hres] at hmem2
  simp only [ResolutionResult.resultUrl] at hmem2
  exact ⟨hmem2, hout.2.2 u hmem2⟩

set_option maxRecDepth 8000 in
/-- witness for unresolved_citation_kept: a single chunk whose URL the
resolver cannot resolve still appears in the deduplicated output -/
theorem unresolved_citation_kept_witness :
    (gRespSample.candidates = some [gCandSample]
      ∧ gCandSample.grounding_metadata = some ⟨some (some [gChunkSample])⟩
      ∧ (⟨some (some [gChunkSample])⟩ : GroundingMetadata).grounding_chunks
          = some (some [gChunkSample])
      ∧ gChunkSample ∈ [gChunkSample]
      ∧ gChunkSample.web = some gwSample
      ∧ gwSample.uri = some (some sampleIndirection)
      ∧ resUnresolved sampleIndirection
          = .Unresolved sampleIndirection .timeout
      ∧ searchGeminiExtract resUnresolved gRespSample
          = .ok [sampleIndirection]
      ∧ IsPySetList [sampleIndirection] [sampleIndirection])
    ∧ sampleIndirection ∈ [sampleIndirection]
    ∧ sampleIndirection ∈ ([sampleIndirection] : List String) :=
  ⟨⟨rfl, rfl, rfl, List.mem_singleton.mpr rfl, rfl, rfl, rfl, rfl,
      by decide⟩,
    unresolved_citation_kept resUnresolved gRespSample gCandSample []
      ⟨some (some [gChunkSample])⟩ [gChunkSample] gChunkSample gwSample
      sampleIndirection .timeout [sampleIndirection] [sampleIndirection]
      rfl rfl rfl (List.mem_singleton.mpr rfl) rfl rfl rfl rfl (by decide)⟩

/-- C7 (code bug): a Gemini payload whose grounding_chunks attribute is
present but None passes the hasattr-only guard at line 140, and the
iteration at line 141 then raises TypeError; contrary to the claim,
this absent-chunks shape is an error path of the adapter rather than an
empty citation set. -/
theorem gemini_none_chunks_raises :
    searchGeminiExtract resUnresolved ⟨some [⟨some ⟨some none⟩⟩]⟩
      = .error .typeError := rfl

/-- C1 counterexample: for extracted citations b then a, the set-based
deduplication of line 115 may emit a then b, which is not the
first-seen order of the input; the code does not fix the order. -/
theorem dedup_order_counterexample :
    IsPySetList (claudeExtract cBlocksSample) ["a", "b"]
    ∧ ["a", "b"] ≠ dedupFirstSeen (claudeExtract cBlocksSample) := by
  decide

/-- C1 (amended): every output permitted by the per-provider extraction
followed by list(set(...)) is duplicate-free and is a permutation of
the first-seen-order deduplication of the extracted citations; the
enumeration order itself is hash-dependent and not guaranteed to be
first-seen (src/main.py lines 109-115 and 135-147). -/
theorem dedup_sound (content : List ClaudeBlock)
    (res : String → ResolutionResult) (resp : GeminiResponse)
    (l out1 out2 : List String)
    (h1 : IsPySetList (claudeExtract content) out1)
    (h2 : searchGeminiExtract res resp = .ok l)
    (h3 : IsPySetList l out2) :
    (out1.Nodup ∧ out1.Perm (dedupFirstSeen (claudeExtract content)))
    ∧ (out2.Nodup ∧ out2.Perm (dedupFirstSeen l)) :=
  ⟨⟨h1.1, pySetList_perm_dedupFirstSeen _ _ h1⟩,
    ⟨h3.1, pySetList_perm_dedupFirstSeen _ _ h3⟩⟩

set_option maxRecDepth 8000 in
/-- witness for dedup_sound at concrete Claude and Gemini inputs -/
theorem dedup_sound_witness :
    (IsPySetList (claudeExtract cBlocksSample) ["a", "b"]
      ∧ searchGeminiExtract resUnresolved gRespSample
          = .ok [sampleIndirection]
      ∧ IsPySetList [sampleIndirection] [sampleIndirection])
    ∧ (((["a", "b"] : List String).Nodup
        ∧ (["a", "b"] : List String).Perm
            (dedupFirstSeen (claudeExtract cBlocksSample)))
      ∧ (([sampleIndirection] : List String).Nodup
        ∧ ([sampleIndirection] : List String).Perm
            (dedupFirstSeen [sampleIndirection]))) :=
  ⟨⟨by decide, rfl, by decide⟩,
    dedup_sound cBlocksSample resUnresolved gRespSample
      [sampleIndirection] ["a", "b"] [sampleIndirection]
      (by decide) rfl (by decide)⟩

/-- C8: a cell whose provider call raises is reported among the
failures, while every cell whose call succeeds still has its record
produced and persisted, and the sweep processes every cell: records and
failure reports together account for all cells
(src/main.py lines 227-251). -/
theorem sweep_isolates_failures (call : Nat → String → String → CallOutcome)
    (cells : List Cell) (c : Cell) (hc : c ∈ cells)
    (herr : ∀ i, call i c.model c.promptData.prompt = CallOutcome.err) :
    c ∈ (runSweep call cells).failed
    ∧ (∀ d ∈ cells, ∀ cs,
        (∀ i, call i d.model d.promptData.prompt = CallOutcome.ok cs)
          → mkRecord d cs ∈ (runSweep call cells).records)
    ∧ (runSweep call cells).records.length
        + (runSweep call cells).failed.length = cells.length := by
  refine ⟨(runSweepFrom_process call cells c hc ⟨[], [], []⟩).1 herr,
    fun d hd cs hok =>
      (runSweepFrom_process call cells d hd ⟨[], [], []⟩).2 cs hok, ?_⟩
  have h := (runSweepFrom_counts call cells ⟨[], [], []⟩).1
  simpa using h

/-- witness for sweep_isolates_failures: a two-cell sweep whose first
cell raises still produces and counts the second cell's record -/
theorem sweep_isolates_failures_witness :
    cellFail ∈ [cellFail, cellOk]
    ∧ cellFail ∈ (runSweep callSample [cellFail, cellOk]).failed
    ∧ mkRecord cellOk ["https://example.com/article"]
        ∈ (runSweep callSample [cellFail, cellOk]).records
    ∧ (runSweep callSample [cellFail, cellOk]).records.length
        + (runSweep callSample [cellFail, cellOk]).failed.length = 2 :=
  have h := sweep_isolates_failures callSample [cellFail, cellOk] cellFail
    (by decide) (fun _ => rfl)
  ⟨by decide, h.1,
    h.2.1 cellOk (by decide) ["https://example.com/article"] (fun _ => rfl),
    h.2.2⟩

/-- C9: the CSV sink emits exactly one row per (record, citation) pair,
so a record with an empty citation list contributes no CSV row while
still contributing exactly one JSON entry (src/main.py lines 253-277). -/
theorem csv_row_per_pair (results pre post : List ResultRecord)
    (r : ResultRecord) (hr : r.citations = []) :
    csvRows results
        = results.flatMap (fun t => t.citations.map (csvRowOf t))
    ∧ (csvRows results).length
        = (results.map (fun t => t.citations.length)).sum
    ∧ csvRows (pre ++ r :: post) = csvRows (pre ++ post)
    ∧ jsonCount (pre ++ r :: post) = jsonCount (pre ++ post) + 1 := by
  refine ⟨csvRows_eq_flatMap results, csvRows_length results, ?_, ?_⟩
  · rw [csvRows_eq_flatMap, csvRows_eq_flatMap]
    simp [hr]
  · simp only [jsonCount, List.length_append, List.length_cons]
    omega

/-- witness for csv_row_per_pair: a record without citations adds no CSV
row but one JSON entry, next to a record with two citations -/
theorem csv_row_per_pair_witness :
    (mkRecord cellFail []).citations = []
    ∧ csvRows [mkRecord cellOk ["a", "b"]]
        = [mkRecord cellOk ["a", "b"]].flatMap
            (fun t => t.citations.map (csvRowOf t))
    ∧ (csvRows [mkRecord cellOk ["a", "b"]]).length
        = ([mkRecord cellOk ["a", "b"]].map
            (fun t => t.citations.length)).sum
    ∧ csvRows ([] ++ mkRecord cellFail [] :: [mkRecord cellOk ["a", "b"]])
        = csvRows ([] ++ [mkRecord cellOk ["a", "b"]])
    ∧ jsonCount ([] ++ mkRecord cellFail [] :: [mkRecord cellOk ["a", "b"]])
        = jsonCount ([] ++ [mkRecord cellOk ["a", "b"]]) + 1 :=
  have h := csv_row_per_pair [mkRecord cellOk ["a", "b"]] []
    [mkRecord cellOk ["a", "b"]] (mkRecord cellFail []) rfl
  ⟨rfl, h.1, h.2.1, h.2.2.1, h.2.2.2⟩

/-- C10: temperature never influences the provider calls or the
citations obtained: two sweeps over cell lists that agree except for
temperatures issue the identical sequence of provider invocations and
produce records that agree once the temperature field is erased, and a
record's temperature is just the cell's configured value copied
verbatim (src/main.py lines 222-245; line 232 passes only the prompt
text to the search function). -/
theorem temperature_noninterference
    (call : Nat → String → String → CallOutcome)
    (cells1 cells2 : List Cell)
    (h : List.Forall₂ TempVariant cells1 cells2) :
    (runSweep call cells1).calls = (runSweep call cells2).calls
    ∧ (runSweep call cells1).records.map eraseTemp
        = (runSweep call cells2).records.map eraseTemp
    ∧ ∀ c cs, (mkRecord c cs).temperature = c.temperature := by
  obtain ⟨h1, h2⟩ :=
    runSweepFrom_tempNI call cells1 cells2 h ⟨[], [], []⟩ ⟨[], [], []⟩ rfl rfl
  exact ⟨h1, h2, fun c cs => rfl⟩

/-- witness for temperature_noninterference: the same cell at two
temperatures issues the same call and yields the same record modulo the
temperature field -/
theorem temperature_noninterference_witness :
    List.Forall₂ TempVariant [cellOk] [cellOkWarm]
    ∧ (runSweep callSample [cellOk]).calls
        = (runSweep callSample [cellOkWarm]).calls
    ∧ (runSweep callSample [cellOk]).records.map eraseTemp
        = (runSweep callSample [cellOkWarm]).records.map eraseTemp
    ∧ (mkRecord cellOkWarm ["x"]).temperature = cellOkWarm.temperature :=
  have h := temperature_noninterference callSample [cellOk] [cellOkWarm]
    (List.Forall₂.cons ⟨rfl, rfl, rfl⟩ List.Forall₂.nil)
  ⟨List.Forall₂.cons ⟨rfl, rfl, rfl⟩ List.Forall₂.nil,
    h.1, h.2.1, h.2.2 cellOkWarm ["x"]⟩
